import Mathlib

/-!
Shallow embedding of the speedtest CLI (src/main.rs).

The program issues timed HTTP requests against fixed endpoints and reduces
the observed byte counts and wall-clock durations to four scalars
(download/upload throughput in Mbps, mean latency in ms, jitter in ms),
packaged into a `SpeedTestResult` record.

Modelling choices:
- `f64` values (elapsed seconds, throughputs) are modelled as exact
  rationals `ℚ`; the only place where IEEE special values matter is the
  jitter reduction, where dividing `0.0 / 0.0` yields NaN — that division is
  modelled by `Option ℚ` with `none` standing for the undefined (NaN)
  outcome.
- The HTTP transport is an oracle (`Transport`): for each request the
  oracle decides success or failure and, on success, the observed byte
  count and elapsed wall-clock time.  Requests are indexed by their
  position inside each probe loop, which is fully general for one run and
  captures a deterministic mock transport exactly.
- `u32` multiplication `size * 1_000_000` wraps modulo 2^32
  (release-build semantics), modelled with an explicit `% 4294967296`.
- The `.unwrap()` panic in the jitter loop aborts the process; the
  orchestrator is therefore modelled as returning `Option SpeedTestResult`
  with `none` for the aborted run.
-/

namespace SpeedTest

/-- Relevant command-line configuration (struct `Cli` in main.rs):
`download_size` and `upload_size` are sizes in MB stored as `u32`,
`timeout` the per-request timeout in seconds, `verbose` the logging flag
(logging has no effect on the computed values). -/
structure Cli where
  verbose : Bool
  download_size : ℕ
  upload_size : ℕ
  timeout : ℕ

/-- Outcome of the single download GET: the send itself can fail
(`client.get(url).send()` returns `Err`), reading the body can fail
(`response.bytes()` returns `Err`), or the probe observes a received byte
count and an elapsed duration in seconds. -/
inductive DownloadOutcome where
  | sendErr : DownloadOutcome
  | readErr : DownloadOutcome
  | ok : ℕ → ℚ → DownloadOutcome

/-- The HTTP transport together with the wall clock, as an oracle.
`download` is given the byte count requested in the URL and returns the
outcome; `upload` is given the POST body; `latency i` and `jitter i` give
the outcome of the i-th GET of the respective sampling loop (for latency,
`some` carries the elapsed integer milliseconds from
`as_millis() as f64`; for jitter, `some` carries elapsed seconds from
`as_secs_f64()`). -/
structure Transport where
  download : ℕ → DownloadOutcome
  upload : List ℕ → Option ℚ
  latency : ℕ → Option ℕ
  jitter : ℕ → Option ℚ

/-- The record built by `main` (struct `SpeedTestResult` in main.rs). -/
structure SpeedTestResult where
  timestamp : ℤ
  download_speed_mbps : ℚ
  upload_speed_mbps : ℚ
  ping_ms : ℚ
  server_id : String
  jitter_ms : ℚ
deriving DecidableEq

/-- `size * 1_000_000` computed in `u32`: wraps modulo 2^32 = 4294967296.
Used both for the byte count in the download URL and for the upload
payload length. -/
def mbToBytesU32 (size : ℕ) : ℕ :=
  (size * 1000000) % 4294967296

/-- `bits / duration / 1_000_000.0` with `bits = bytes.len() as f64 * 8.0`
(main.rs lines 216-218). -/
def throughputMbps (bytesLen : ℕ) (durationSec : ℚ) : ℚ :=
  (bytesLen : ℚ) * 8 / durationSec / 1000000

/-- `test_download` (main.rs lines 208-235): one GET to the
size-parameterized endpoint; on success the throughput is computed from
the actual received byte count and the elapsed seconds; any error yields
`0.0`. -/
def test_download (client : Transport) (size : ℕ) : ℚ :=
  match client.download (mbToBytesU32 size) with
  | .sendErr => 0
  | .readErr => 0
  | .ok bytesLen duration => throughputMbps bytesLen duration

/-- `vec![0u8; (size * 1_000_000) as usize]` (main.rs line 238). -/
def uploadBody (size : ℕ) : List ℕ :=
  List.replicate (mbToBytesU32 size) 0

/-- `test_upload` (main.rs lines 237-256): one POST with the zero-filled
body; on success the throughput is `(size as f64 * 8.0) / duration` with
`size` in MB; any error yields `0.0`. -/
def test_upload (client : Transport) (size : ℕ) : ℚ :=
  match client.upload (uploadBody size) with
  | none => 0
  | some duration => (size : ℚ) * 8 / duration

/-- The `times` vector accumulated by the loop `for i in 0..3` in
`test_latency` (main.rs lines 262-274): each successful GET pushes its
elapsed milliseconds, failed GETs push nothing. -/
def latencyTimes (client : Transport) : List ℚ :=
  (List.range 3).foldl
    (fun times i =>
      match client.latency i with
      | some ms => times ++ [(ms : ℚ)]
      | none => times)
    []

/-- `test_latency` (main.rs lines 258-284): mean of the successful
samples, `0.0` when all three requests failed. -/
def test_latency (client : Transport) : ℚ :=
  let times := latencyTimes client
  if times.isEmpty then 0
  else times.sum / (times.length : ℚ)

/-- The jitter sampling loop (main.rs lines 290-300), collecting `n`
samples starting at request index `i`: each elapsed time in seconds is
converted to milliseconds (`* 1000.0`) and pushed; a transport error hits
`.unwrap()` and panics, modelled as `none`. -/
def collectJitterSamples (client : Transport) : ℕ → ℕ → Option (List ℚ)
  | _, 0 => some []
  | i, n + 1 =>
    match client.jitter i with
    | none => none
    | some sec => (collectJitterSamples client (i + 1) n).map
        fun rest => (sec * 1000) :: rest

/-- `total_jitter` (main.rs lines 303-306): sum of the absolute
differences of consecutive samples. -/
def sumConsecDiffs : List ℚ → ℚ
  | [] => 0
  | [_] => 0
  | a :: b :: rest => |b - a| + sumConsecDiffs (b :: rest)

/-- The unguarded reduction `total_jitter / (jitter_samples.len() - 1)`
(main.rs line 307).  With fewer than 2 samples the divisor is 0 and the
`f64` division `0.0 / 0.0` produces NaN, modelled as `none`.  (The only
call site always supplies exactly 10 samples, so this branch is
unreachable in the program; with 0 samples the `usize` subtraction would
additionally underflow.) -/
def jitterReduce (samples : List ℚ) : Option ℚ :=
  if samples.length - 1 = 0 then none
  else some (sumConsecDiffs samples / ((samples.length - 1 : ℕ) : ℚ))

/-- `test_jitter` (main.rs lines 286-314): collect 10 samples — any
transport error panics via `.unwrap()` (`none`) — then reduce.  With 10
samples the reduction always yields `some`. -/
def test_jitter (client : Transport) : Option ℚ :=
  match collectJitterSamples client 0 10 with
  | none => none
  | some samples => jitterReduce samples

/-- `main` (main.rs lines 82-154), restricted to the measurement core:
runs the four probes in order and assembles the result record with the
completion timestamp and the hard-coded server id.  A panic inside
`test_jitter` aborts the whole run (`none`); output formatting and the
optional ClickHouse export do not affect the record. -/
def main_run (cli : Cli) (client : Transport) (now : ℤ) : Option SpeedTestResult :=
  let download_speed := test_download client cli.download_size
  let upload_speed := test_upload client cli.upload_size
  let ping := test_latency client
  match test_jitter client with
  | none => none
  | some jitter =>
    some { timestamp := now
           download_speed_mbps := download_speed
           upload_speed_mbps := upload_speed
           ping_ms := ping
           jitter_ms := jitter
           server_id := "cloudflare" }

/-- The default configuration (main.rs lines 30-40): 100 MB download,
20 MB upload, 30 s timeout. -/
def cliDefault : Cli :=
  { verbose := false, download_size := 100, upload_size := 20, timeout := 30 }

/-- A deterministic transport realizing the end-to-end scenario of the
spec: the download GET returns 50,000,000 bytes in 1 s, the upload POST
acknowledges after 2 s, the latency samples take 12, 14 and 13 ms, and
every jitter GET takes 50 ms (1/20 s). -/
def tGood : Transport :=
  { download := fun _ => .ok 50000000 1
    upload := fun _ => some 2
    latency := fun i => if i = 0 then some 12 else if i = 1 then some 14 else some 13
    jitter := fun _ => some (1 / 20) }

/-- A transport where only the upload succeeds (after 2 s). -/
def tUploadOnly : Transport :=
  { download := fun _ => .sendErr
    upload := fun _ => some 2
    latency := fun _ => none
    jitter := fun _ => none }

/-- Claim C4: a successful download probe reports
(actual received byte count × 8) / elapsed seconds / 1,000,000 Mbps —
computed from the bytes actually received, not the requested size — and
for a fixed byte count the throughput is monotonically decreasing in the
elapsed time on `0 < T`. -/
theorem download_throughput_formula (client : Transport) (size bytesLen : ℕ)
    (durationSec : ℚ)
    (hok : client.download (mbToBytesU32 size) = .ok bytesLen durationSec)
    (T₁ T₂ : ℚ) (hT : 0 < T₁) (hTT : T₁ ≤ T₂) :
    test_download client size = (bytesLen : ℚ) * 8 / durationSec / 1000000 ∧
    throughputMbps bytesLen T₂ ≤ throughputMbps bytesLen T₁ := by
  constructor
  · simp [test_download, hok, throughputMbps]
  · unfold throughputMbps
    gcongr

/-- Witness for C4 at the concrete scenario transport: 50,000,000 bytes
in 1 s reports 400 Mbps worth of formula, and slowing from 1 s to 2 s
does not increase the reported throughput. -/
theorem download_throughput_formula_witness :
    tGood.download (mbToBytesU32 100) = .ok 50000000 1 ∧
    (0 : ℚ) < 1 ∧ (1 : ℚ) ≤ 2 ∧
    (test_download tGood 100 = (50000000 : ℚ) * 8 / 1 / 1000000 ∧
      throughputMbps 50000000 2 ≤ throughputMbps 50000000 1) :=
  ⟨rfl, by norm_num, by norm_num,
    download_throughput_formula tGood 100 50000000 1 rfl 1 2 (by norm_num) (by norm_num)⟩

/-- Claim C5: for sizes where `size * 1_000_000` does not overflow `u32`
(size ≤ 4294 MB, which covers the default 20 MB), the POST body is a
zero-filled payload of exactly `size * 10^6` bytes and a successful
upload reports (requested byte count × 8) / elapsed seconds / 1,000,000
Mbps — the code computes `(size as f64 * 8.0) / duration` with `size` in
MB, which is the same rational number. -/
theorem upload_body_and_throughput (client : Transport) (size : ℕ)
    (durationSec : ℚ) (hsize : size ≤ 4294)
    (hok : client.upload (uploadBody size) = some durationSec) :
    uploadBody size = List.replicate (size * 1000000) 0 ∧
    test_upload client size = ((size * 1000000 : ℕ) : ℚ) * 8 / durationSec / 1000000 := by
  have hb : mbToBytesU32 size = size * 1000000 := by
    unfold mbToBytesU32; omega
  refine ⟨by rw [uploadBody, hb], ?_⟩
  rw [test_upload, hok]
  push_cast
  rcases eq_or_ne durationSec 0 with h | h
  · simp [h]
  · field_simp
    ring

/-- Witness for C5 at the default 20 MB upload acknowledged in 2 s. -/
theorem upload_body_and_throughput_witness :
    20 ≤ 4294 ∧ tUploadOnly.upload (uploadBody 20) = some 2 ∧
    (uploadBody 20 = List.replicate (20 * 1000000) 0 ∧
      test_upload tUploadOnly 20 = ((20 * 1000000 : ℕ) : ℚ) * 8 / 2 / 1000000) :=
  ⟨by norm_num, rfl, upload_body_and_throughput tUploadOnly 20 2 (by norm_num) rfl⟩

/-- Claim C10: the requested download byte count and the upload payload
length are `size * 1_000_000` in `u32` arithmetic: exact for every
size ≤ 4294, and for any larger size the wrapped value
`size * 10^6 mod 2^32` is strictly below the intended byte count; the
download probe consults the transport exactly at that wrapped byte count
and the upload body has exactly that length. -/
theorem u32_byte_count_wraps :
    (∀ size : ℕ, size ≤ 4294 → mbToBytesU32 size = size * 1000000) ∧
    (∀ size : ℕ, 4294 < size →
      mbToBytesU32 size = size * 1000000 % 4294967296 ∧
      mbToBytesU32 size < size * 1000000) ∧
    (∀ size : ℕ, (uploadBody size).length = mbToBytesU32 size) ∧
    (∀ size : ℕ, ∀ client₁ client₂ : Transport,
      client₁.download (mbToBytesU32 size) = client₂.download (mbToBytesU32 size) →
      test_download client₁ size = test_download client₂ size) := by
  refine ⟨fun size h => by unfold mbToBytesU32; omega,
    fun size h => ⟨rfl, by unfold mbToBytesU32; omega⟩,
    fun size => List.length_replicate _ _,
    fun size c₁ c₂ h => by simp only [test_download, h]⟩

/-- Witness for C10: 4294 MB is exact, 4295 MB wraps (4,295,000,000
mod 2^32 = 32,704 ≠ 4,295,000,000), and the download probe at the
scenario transport only depends on the wrapped request. -/
theorem u32_byte_count_wraps_witness :
    (4294 ≤ 4294 ∧ mbToBytesU32 4294 = 4294 * 1000000) ∧
    (4294 < 4295 ∧ mbToBytesU32 4295 = 4295 * 1000000 % 4294967296 ∧
      mbToBytesU32 4295 < 4295 * 1000000) ∧
    (tGood.download (mbToBytesU32 100) = tGood.download (mbToBytesU32 100) ∧
      test_download tGood 100 = test_download tGood 100) :=
  ⟨⟨le_refl 4294, u32_byte_count_wraps.1 4294 (le_refl 4294)⟩,
    ⟨by norm_num, u32_byte_count_wraps.2.1 4295 (by norm_num)⟩,
    ⟨rfl, u32_byte_count_wraps.2.2.2 100 tGood tGood rfl⟩⟩

/-- A transport exercising only the latency sampler, with the given
per-request outcomes; all other probes fail. -/
def latTr (f : ℕ → Option ℕ) : Transport :=
  { download := fun _ => .sendErr
    upload := fun _ => none
    latency := f
    jitter := fun _ => none }

/-- The successful outcomes of the three latency requests, in order. -/
def latencySuccesses (client : Transport) : List ℕ :=
  (List.range 3).filterMap client.latency

/-- The `times` vector is exactly the successful outcomes of the three
requests, in order, cast to `f64`. -/
theorem latencyTimes_eq (client : Transport) :
    latencyTimes client = (latencySuccesses client).map (fun ms : ℕ => (ms : ℚ)) := by
  simp only [latencyTimes, latencySuccesses, show List.range 3 = [0, 1, 2] from rfl]
  cases h0 : client.latency 0 <;> cases h1 : client.latency 1 <;>
    cases h2 : client.latency 2 <;>
    simp [h0, h1, h2]

/-- Claim C6: the latency sampler skips failed requests, returns the
arithmetic mean of the successful samples in milliseconds — samples
[10, 20, 30] yield 20.0, a single success out of three yields that
sample's value — and returns exactly 0.0 when no sample succeeds. -/
theorem latency_mean_of_successes :
    (∀ client : Transport,
      test_latency client =
        (if latencySuccesses client = [] then 0
         else ((latencySuccesses client).map (fun ms : ℕ => (ms : ℚ))).sum /
           ((latencySuccesses client).length : ℚ))) ∧
    test_latency (latTr fun i => if i = 0 then some 10 else if i = 1 then some 20 else some 30) = 20 ∧
    (∀ v : ℕ, test_latency (latTr fun i => if i = 1 then some v else none) = (v : ℚ)) ∧
    test_latency (latTr fun _ => none) = 0 := by
  refine ⟨?_, ?_, ?_, ?_⟩
  · intro client
    rw [test_latency, latencyTimes_eq]
    by_cases h : latencySuccesses client = []
    · simp [h]
    · rw [if_neg (by simp only [List.isEmpty_iff, List.map_eq_nil_iff]; exact h),
        if_neg h, List.length_map]
  · norm_num [test_latency, latencyTimes, latTr,
      show List.range 3 = [0, 1, 2] from rfl]
  · intro v
    simp [test_latency, latencyTimes, latTr,
      show List.range 3 = [0, 1, 2] from rfl]
  · simp [test_latency, latencyTimes, latTr,
      show List.range 3 = [0, 1, 2] from rfl]

/-- `total_jitter` equals the sum over the consecutive pairs of the
absolute difference. -/
theorem sumConsecDiffs_eq_zip (l : List ℚ) :
    sumConsecDiffs l = ((l.zip l.tail).map fun p => |p.2 - p.1|).sum := by
  induction l with
  | nil => simp [sumConsecDiffs]
  | cons a tl ih =>
    cases tl with
    | nil => simp [sumConsecDiffs]
    | cons b rest => simp [sumConsecDiffs, ih]

/-- Claim C7: with N ≥ 2 samples the jitter reduction is defined and
equals the sum of |sample[i] − sample[i−1]| over the N−1 consecutive
pairs, divided by N−1; samples [100, 105, 95, 110] yield 10.0. -/
theorem jitter_mean_abs_consecutive_diffs :
    (∀ samples : List ℚ, 2 ≤ samples.length →
      jitterReduce samples =
        some (((samples.zip samples.tail).map fun p => |p.2 - p.1|).sum /
          ((samples.length - 1 : ℕ) : ℚ))) ∧
    jitterReduce [100, 105, 95, 110] = some 10 := by
  constructor
  · intro samples h
    rw [jitterReduce, sumConsecDiffs_eq_zip, if_neg (by omega)]
  · norm_num [jitterReduce, sumConsecDiffs]

/-- Witness for C7 at the spec's sample sequence. -/
theorem jitter_mean_abs_consecutive_diffs_witness :
    2 ≤ ([100, 105, 95, 110] : List ℚ).length ∧
    jitterReduce [100, 105, 95, 110] =
      some (((([100, 105, 95, 110] : List ℚ).zip
          ([100, 105, 95, 110] : List ℚ).tail).map fun p => |p.2 - p.1|).sum /
        ((([100, 105, 95, 110] : List ℚ).length - 1 : ℕ) : ℚ)) :=
  ⟨by decide, jitter_mean_abs_consecutive_diffs.1 [100, 105, 95, 110] (by decide)⟩

/-- Claim C3 (the code violates it): fed exactly one elapsed-time sample,
the reduction divides `0.0` by `(1 - 1) as f64 = 0.0`, producing IEEE NaN
(modelled `none`) — not the defined result 0.0 the spec requires. -/
theorem jitter_single_sample_is_nan : jitterReduce [100] = none := rfl

/-- A transport error anywhere in the first `n` requests of the jitter
loop makes the collection panic (`none`). -/
theorem collectJitterSamples_none (client : Transport) :
    ∀ n i, (∃ k, k < n ∧ client.jitter (i + k) = none) →
      collectJitterSamples client i n = none := by
  intro n
  induction n with
  | zero =>
    rintro i ⟨k, hk, -⟩
    omega
  | succ m ih =>
    rintro i ⟨k, hk, hfail⟩
    cases hj : client.jitter i with
    | none => simp [collectJitterSamples, hj]
    | some sec =>
      have hk0 : k ≠ 0 := by
        rintro rfl
        rw [Nat.add_zero, hj] at hfail
        exact Option.noConfusion hfail
      obtain ⟨k', rfl⟩ := Nat.exists_eq_succ_of_ne_zero hk0
      have hrec : collectJitterSamples client (i + 1) m = none :=
        ih (i + 1) ⟨k', by omega, by rw [show i + 1 + k' = i + (k' + 1) by omega]; exact hfail⟩
      simp [collectJitterSamples, hj, hrec]

/-- Claim C2: a transport failure on any individual jitter sample is
fatal to the whole sampler — the `.unwrap()` panics, so the sampler
aborts (`none`) rather than skipping the sample or substituting 0.0. -/
theorem jitter_transport_error_fatal (client : Transport) (i : ℕ)
    (hi : i < 10) (hfail : client.jitter i = none) :
    test_jitter client = none := by
  have h : collectJitterSamples client 0 10 = none :=
    collectJitterSamples_none client 10 0 ⟨i, hi, by simpa using hfail⟩
  simp [test_jitter, h]

/-- A transport whose sixth jitter GET fails while everything else
succeeds. -/
def tJitterFailAt5 : Transport :=
  { download := fun _ => .ok 50000000 1
    upload := fun _ => some 2
    latency := fun _ => some 13
    jitter := fun i => if i = 5 then none else some (1 / 20) }

/-- Witness for C2: one failed sample (index 5) aborts the sampler. -/
theorem jitter_transport_error_fatal_witness :
    5 < 10 ∧ tJitterFailAt5.jitter 5 = none ∧ test_jitter tJitterFailAt5 = none :=
  ⟨by decide, rfl, jitter_transport_error_fatal tJitterFailAt5 5 (by decide) rfl⟩

/-- If all samples the jitter loop asks for succeed, the collection
yields exactly that many samples. -/
theorem collectJitterSamples_some (client : Transport) :
    ∀ n i, (∀ k, k < n → (client.jitter (i + k)).isSome) →
      ∃ l, collectJitterSamples client i n = some l ∧ l.length = n := by
  intro n
  induction n with
  | zero => exact fun i _ => ⟨[], rfl, rfl⟩
  | succ m ih =>
    intro i h
    have h0 : (client.jitter i).isSome := by simpa using h 0 (Nat.succ_pos m)
    obtain ⟨sec, hsec⟩ := Option.isSome_iff_exists.mp h0
    obtain ⟨l, hl, hlen⟩ := ih (i + 1) (fun k hk => by
      simpa [show i + 1 + k = i + (k + 1) by omega] using h (k + 1) (by omega))
    exact ⟨(sec * 1000) :: l, by simp [collectJitterSamples, hsec, hl], by simp [hlen]⟩

/-- With every jitter GET succeeding, the sampler returns a value. -/
theorem test_jitter_isSome (client : Transport)
    (h : ∀ i, i < 10 → (client.jitter i).isSome) :
    ∃ j, test_jitter client = some j := by
  obtain ⟨l, hl, hlen⟩ :=
    collectJitterSamples_some client 10 0 (fun k hk => by simpa using h k hk)
  refine ⟨sumConsecDiffs l / ((l.length - 1 : ℕ) : ℚ), ?_⟩
  simp [test_jitter, hl, jitterReduce, hlen]

/-- A transport where download, upload and latency all succeed but every
jitter GET fails. -/
def tJitterFail : Transport :=
  { download := fun _ => .ok 50000000 1
    upload := fun _ => some 2
    latency := fun _ => some 13
    jitter := fun _ => none }

/-- A transport where download, upload and latency all fail but every
jitter GET succeeds (50 ms each). -/
def tOnlyJitterOk : Transport :=
  { download := fun _ => .sendErr
    upload := fun _ => none
    latency := fun _ => none
    jitter := fun _ => some (1 / 20) }

/-- Claim C1 (counterexample to the original statement): there is a
transport behaviour — jitter GETs failing, everything else succeeding —
under which the run aborts and returns no populated result at all. -/
theorem orchestrator_aborts_on_jitter_failure :
    main_run cliDefault tJitterFail 0 = none := rfl

/-- Claim C1 (amended): provided every jitter GET succeeds, the run
always returns a fully populated result; download, upload and latency
probes degrade to 0.0 on transport failure without aborting the run.
(The original claim fails for transport errors in the jitter probe, whose
`.unwrap()` panic aborts the whole run.) -/
theorem orchestrator_total_except_jitter (cli : Cli) (client : Transport)
    (now : ℤ) (hj : ∀ i, i < 10 → (client.jitter i).isSome) :
    ∃ r, main_run cli client now = some r ∧
      (client.download (mbToBytesU32 cli.download_size) = .sendErr →
        r.download_speed_mbps = 0) ∧
      (client.upload (uploadBody cli.upload_size) = none →
        r.upload_speed_mbps = 0) ∧
      ((∀ i, i < 3 → client.latency i = none) → r.ping_ms = 0) := by
  obtain ⟨j, hjit⟩ := test_jitter_isSome client hj
  refine ⟨{ timestamp := now
            download_speed_mbps := test_download client cli.download_size
            upload_speed_mbps := test_upload client cli.upload_size
            ping_ms := test_latency client
            server_id := "cloudflare"
            jitter_ms := j }, ?_, ?_, ?_, ?_⟩
  · simp [main_run, hjit]
  · intro h
    simp [test_download, h]
  · intro h
    simp [test_upload, h]
  · intro h
    simp [test_latency, latencyTimes, show List.range 3 = [0, 1, 2] from rfl,
      h 0 (by omega), h 1 (by omega), h 2 (by omega)]

/-- Witness for the amended C1: with download, upload and latency all
failing and jitter succeeding, the run completes with the failed probes
defaulted to 0.0. -/
theorem orchestrator_total_except_jitter_witness :
    (∀ i, i < 10 → (tOnlyJitterOk.jitter i).isSome) ∧
    (∃ r, main_run cliDefault tOnlyJitterOk 0 = some r ∧
      (tOnlyJitterOk.download (mbToBytesU32 cliDefault.download_size) = .sendErr →
        r.download_speed_mbps = 0) ∧
      (tOnlyJitterOk.upload (uploadBody cliDefault.upload_size) = none →
        r.upload_speed_mbps = 0) ∧
      ((∀ i, i < 3 → tOnlyJitterOk.latency i = none) → r.ping_ms = 0)) :=
  ⟨by decide, orchestrator_total_except_jitter cliDefault tOnlyJitterOk 0 (by decide)⟩

/-- The record produced by a run against `tGood`: 400 Mbps download,
80 Mbps upload, 13 ms mean latency, 0 ms jitter (all jitter samples take
the same 50 ms). -/
def rScenario (now : ℤ) : SpeedTestResult :=
  { timestamp := now
    download_speed_mbps := 400
    upload_speed_mbps := 80
    ping_ms := 13
    server_id := "cloudflare"
    jitter_ms := 0 }

/-- Concrete evaluation of the orchestrator on the scenario transport. -/
theorem main_run_tGood (now : ℤ) :
    main_run cliDefault tGood now = some (rScenario now) := by
  simp only [main_run, rScenario]
  norm_num [test_download, test_upload, test_latency, test_jitter, latencyTimes,
    collectJitterSamples, jitterReduce, sumConsecDiffs, throughputMbps,
    tGood, cliDefault, mbToBytesU32, uploadBody,
    show List.range 3 = [0, 1, 2] from rfl]

/-- Claim C8: the run is a deterministic function of the configuration
and the transport oracle — two completed runs with the same configuration
against the same deterministic transport yield identical values for all
four numeric fields (only the timestamps may differ). -/
theorem run_deterministic (cli : Cli) (client : Transport) (now₁ now₂ : ℤ)
    (r₁ r₂ : SpeedTestResult)
    (h₁ : main_run cli client now₁ = some r₁)
    (h₂ : main_run cli client now₂ = some r₂) :
    r₁.download_speed_mbps = r₂.download_speed_mbps ∧
    r₁.upload_speed_mbps = r₂.upload_speed_mbps ∧
    r₁.ping_ms = r₂.ping_ms ∧
    r₁.jitter_ms = r₂.jitter_ms := by
  cases hj : test_jitter client with
  | none =>
    simp only [main_run, hj] at h₁
    exact Option.noConfusion h₁
  | some j =>
    simp only [main_run, hj, Option.some.injEq] at h₁ h₂
    subst h₁
    subst h₂
    exact ⟨rfl, rfl, rfl, rfl⟩

/-- Witness for C8: two runs against `tGood` at different timestamps,
with equal numeric fields. -/
theorem run_deterministic_witness :
    main_run cliDefault tGood 0 = some (rScenario 0) ∧
    main_run cliDefault tGood 1 = some (rScenario 1) ∧
    ((rScenario 0).download_speed_mbps = (rScenario 1).download_speed_mbps ∧
      (rScenario 0).upload_speed_mbps = (rScenario 1).upload_speed_mbps ∧
      (rScenario 0).ping_ms = (rScenario 1).ping_ms ∧
      (rScenario 0).jitter_ms = (rScenario 1).jitter_ms) :=
  ⟨main_run_tGood 0, main_run_tGood 1,
    run_deterministic cliDefault tGood 0 1 (rScenario 0) (rScenario 1)
      (main_run_tGood 0) (main_run_tGood 1)⟩

/-- Claim C9: whenever the run completes, the recorded server identifier
is the literal string "cloudflare", for every configuration, transport
and timestamp. -/
theorem server_id_cloudflare (cli : Cli) (client : Transport) (now : ℤ)
    (r : SpeedTestResult) (h : main_run cli client now = some r) :
    r.server_id = "cloudflare" := by
  cases hj : test_jitter client with
  | none =>
    simp only [main_run, hj] at h
    exact Option.noConfusion h
  | some j =>
    simp only [main_run, hj, Option.some.injEq] at h
    subst h
    rfl

/-- Witness for C9 at the scenario transport. -/
theorem server_id_cloudflare_witness :
    main_run cliDefault tGood 0 = some (rScenario 0) ∧
    (rScenario 0).server_id = "cloudflare" :=
  ⟨main_run_tGood 0,
    server_id_cloudflare cliDefault tGood 0 (rScenario 0) (main_run_tGood 0)⟩

end SpeedTest
